import Mathlib

/-!
Shallow embedding of the Incus docker-machine driver
(`pkg/drivers/incus/incus.go`).

Remote-server interactions (the Incus client, the public image index, SSH
key generation, file reads, asynchronous operations) are modelled as
environment records of oracles; the driver's own control flow is translated
faithfully from the Go source.  Go maps are modelled as association lists,
and the fact that Go maps are reference values (so `config := d.rsrcConfig`
aliases the map stored in the driver) is made explicit where it matters.
-/

namespace Incus

/-- One entry of an instance's per-interface address list
(`api.InstanceStateNetworkAddress`). -/
structure Address where
  address : String
  family : String
  scope : String
  deriving DecidableEq, Repr

/-- One network interface's state (`api.InstanceStateNetwork`); only the
address list is read by the driver. -/
structure NetworkState where
  addresses : List Address
  deriving DecidableEq, Repr

/-- Instance status codes (`api.StatusCode`); the subset of the Incus status
vocabulary that the driver's code paths can observe. -/
inductive StatusCode where
  | operationCreated
  | started
  | stopped
  | running
  | cancelling
  | pending
  | starting
  | stopping
  | aborting
  | freezing
  | frozen
  | thawed
  | error
  | failure
  | cancelled
  | success
  deriving DecidableEq, Repr

/-- `api.StatusCode.String()` for the codes above. -/
def StatusCode.display : StatusCode → String
  | .operationCreated => "Operation created"
  | .started => "Started"
  | .stopped => "Stopped"
  | .running => "Running"
  | .cancelling => "Cancelling"
  | .pending => "Pending"
  | .starting => "Starting"
  | .stopping => "Stopping"
  | .aborting => "Aborting"
  | .freezing => "Freezing"
  | .frozen => "Frozen"
  | .thawed => "Thawed"
  | .error => "Error"
  | .failure => "Failure"
  | .cancelled => "Cancelled"
  | .success => "Success"

/-- The instance runtime state returned by `GetInstanceState`
(`api.InstanceState`): a status code and the per-interface network states.
Go iterates `state.Network` (a map) in some order; the model fixes the
iteration order as the list order. -/
structure InstanceState where
  statusCode : StatusCode
  network : List NetworkState
  deriving DecidableEq, Repr

/-- Go maps of string to string (device/config maps), modelled as
association lists in insertion order. -/
abbrev ConfigMap := List (String × String)

/-- Go map assignment `m[k] = v`: overwrite the binding if `k` is present,
otherwise append it. -/
def mapSet : ConfigMap → String → String → ConfigMap
  | [], k, v => [(k, v)]
  | (k', v') :: rest, k, v =>
    if k' == k then (k, v) :: rest else (k', v') :: mapSet rest k v

/-- Go map lookup `m[k]` (as an `Option`). -/
def mapGet : ConfigMap → String → Option String
  | [], _ => none
  | (k', v') :: rest, k => if k' == k then some v' else mapGet rest k

/-- `api.InstanceSource`.  Go structs have all fields present with zero
value `""`; `Server`/`Protocol` are left `""` for a local source. -/
structure InstanceSource where
  type : String
  aliasName : String
  server : String
  protocol : String
  deriving DecidableEq, Repr

/-- The `Driver` struct: user-supplied configuration plus derived / cached
fields.  The cached client handle (`d.incus`, nil until first connect) is
modelled by the boolean `clientConnected`; the nil-until-resolved descriptor
pointers/maps are modelled as `Option`s. -/
structure Driver where
  machineName : String
  storePath : String
  url : String
  tlsClientCert : String
  tlsClientKey : String
  cpu : Int
  memory : Int
  diskSize : Int
  project : String
  profile : String
  network : String
  storage : String
  image : String
  cloudInitUserData : String
  sshPort : Int
  sshUser : String
  ipAddress : String
  clientConnected : Bool
  sshPublicKey : String
  imgConfig : Option InstanceSource
  netConfig : Option ConfigMap
  diskConfig : Option ConfigMap
  rsrcConfig : Option ConfigMap
  isOVN : Bool
  deriving DecidableEq, Repr

/-- `NewDriver`: a driver with the given machine name and store path and Go
zero values everywhere else. -/
def NewDriver (hostName storePath : String) : Driver where
  machineName := hostName
  storePath := storePath
  url := ""
  tlsClientCert := ""
  tlsClientKey := ""
  cpu := 0
  memory := 0
  diskSize := 0
  project := ""
  profile := ""
  network := ""
  storage := ""
  image := ""
  cloudInitUserData := ""
  sshPort := 0
  sshUser := ""
  ipAddress := ""
  clientConnected := false
  sshPublicKey := ""
  imgConfig := none
  netConfig := none
  diskConfig := none
  rsrcConfig := none
  isOVN := false

/-- The remote Incus server and public image index, as oracles for the
read-only queries the driver issues. -/
structure ServerEnv where
  connectOk : Bool
  projectExists : String → Bool
  profileExists : String → Bool
  localImageAlias : String → Bool
  remoteConnectOk : Bool
  remoteImageAlias : String → Bool
  networkLookup : String → Option String
  storagePoolExists : String → Bool

/-- Constant from the source. -/
def imageServer : String := "https://images.linuxcontainers.org"

/-- Constant from the source. -/
def maxRetries : Nat := 100

/-- `Driver.getClient`: reuse the cached handle if present, otherwise
connect, verify the project exists, and cache the project-scoped handle. -/
def getClient (env : ServerEnv) (d : Driver) : Except String Driver :=
  if d.clientConnected then .ok d
  else if !env.connectOk then .error "failed to connect to incus"
  else if !env.projectExists d.project then
    .error ("project " ++ d.project ++ " not found")
  else .ok { d with clientConnected := true }

/-- `Driver.getImage`: empty reference fails; a local alias match yields a
local source (no server/protocol); otherwise the public image index is
consulted and a miss there is an image-not-found error. -/
def getImage (env : ServerEnv) (d : Driver) : Except String InstanceSource :=
  if d.image == "" then .error "image is required"
  else
    match getClient env d with
    | .error e => .error e
    | .ok _ =>
      if env.localImageAlias d.image then
        .ok { type := "image", aliasName := d.image, server := "", protocol := "" }
      else if !env.remoteConnectOk then
        .error "failed to connect to image server"
      else if env.remoteImageAlias d.image then
        .ok { type := "image", aliasName := d.image, server := imageServer,
              protocol := "simplestreams" }
      else .error ("image " ++ d.image ++ " not found in image server")

/-- `Driver.getNetwork`: resolves the named network to a NIC device map and,
for an OVN network, sets the driver's `isOVN` flag (returned as the updated
driver). -/
def getNetwork (env : ServerEnv) (d : Driver) :
    Except String (ConfigMap × Driver) :=
  if d.network == "" then .error "network is required"
  else
    match getClient env d with
    | .error e => .error e
    | .ok d1 =>
      match env.networkLookup d1.network with
      | none => .error ("network " ++ d1.network ++ " not found")
      | some ty =>
        if !(["bridge", "ovn"].contains ty) then
          .error ("network type " ++ ty ++ " not supported")
        else if ty == "bridge" then
          .ok ([("name", d1.network), ("type", "nic"), ("nictype", "bridged"),
                ("parent", d1.network)], d1)
        else
          .ok ([("name", "eth0"), ("type", "nic"), ("network", d1.network)],
               { d1 with isOVN := true })

/-- `Driver.getStorage`: resolves the storage pool to a root-disk device
map, size in MiB. -/
def getStorage (env : ServerEnv) (d : Driver) : Except String ConfigMap :=
  if d.storage == "" then .error "storage is required"
  else
    match getClient env d with
    | .error e => .error e
    | .ok d1 =>
      if !env.storagePoolExists d1.storage then
        .error ("storage " ++ d1.storage ++ " not found")
      else
        .ok [("type", "disk"), ("path", "/"), ("pool", d1.storage),
             ("size", toString d1.diskSize ++ "MiB")]

/-- `Driver.getResource`: the resource-limit config map; never fails. -/
def getResource (d : Driver) : Except String ConfigMap :=
  .ok [("limits.cpu", toString d.cpu),
       ("limits.memory", toString d.memory ++ "MiB")]

/-- `Driver.PreCreateCheck`: connect, validate the profile, then resolve
image, network, storage and resource descriptors into the driver. -/
def PreCreateCheck (env : ServerEnv) (d : Driver) : Except String Driver :=
  match getClient env d with
  | .error e => .error e
  | .ok d1 =>
    if !env.profileExists d1.profile then
      .error ("profile " ++ d1.profile ++ " not found")
    else
      match getImage env d1 with
      | .error e => .error e
      | .ok img =>
        let d2 := { d1 with imgConfig := some img }
        match getNetwork env d2 with
        | .error e => .error e
        | .ok (netc, d3) =>
          let d4 := { d3 with netConfig := some netc }
          match getStorage env d4 with
          | .error e => .error e
          | .ok diskc =>
            let d5 := { d4 with diskConfig := some diskc }
            match getResource d5 with
            | .error e => .error e
            | .ok rsrc => .ok { d5 with rsrcConfig := some rsrc }

/-- The `cloudInitVendorData` template with `fmt.Sprintf`'s single `%s`
replaced by the public key. -/
def cloudInitVendorData (pubKey : String) : String :=
  "#cloud-config\nallow_public_ssh_keys: true\nssh_authorized_keys:\n  - "
    ++ pubKey ++
    "\nno_ssh_fingerprints: false\nssh:\n  emit_keys_to_console: false\ndisable_root: false\npackage_update: true\npackages:\n  - openssh-server\n  - curl\n  - iptables\n  - open-iscsi\n"

/-- The fixed `cloudInitNetworkConfigOVN` constant. -/
def cloudInitNetworkConfigOVN : String :=
  "#cloud-config\nnetwork:\n  version: 1\n  config:\n  - type: physical\n    name: enp5s0\n    mtu: 1442\n    subnets:\n    - type: dhcp\n  - type: physical\n    name: eth0\n    mtu: 1442\n    subnets:\n    - type: dhcp\n"

/-- The status codes treated as terminal errors by `Create`'s polling loop
(the literal slice in the `slices.Contains` test). -/
def terminalStatusCodes : List StatusCode :=
  [.aborting, .freezing, .frozen, .thawed, .error, .failure, .cancelled]

/-- The scan over `state.Network`: outer loop over interfaces, inner loop
over addresses, returning the first address with `Family == "inet"` and
`Scope != "local"`. -/
def firstQualifyingAddr (nets : List NetworkState) : Option Address :=
  nets.findSome? fun n =>
    n.addresses.find? fun a => a.family == "inet" && a.scope != "local"

/-- Outcome of one run of `Create`'s polling loop. -/
inductive PollResult where
  | ipFound (addr : String)
  | statusError (s : StatusCode)
  | queryError (e : String)
  | timeout
  | fuelOut
  deriving DecidableEq, Repr

/-- The Go error value (if any) that the loop returns for each outcome.
`fuelOut` is an artifact of the fuel encoding and is unreachable from
`createPoll` (lemma `pollAux_result_ne_fuelOut`). -/
def PollResult.errorMessage : PollResult → Option String
  | .ipFound _ => none
  | .statusError s => some ("instance state is " ++ s.display)
  | .queryError e => some e
  | .timeout => some "timeout waiting for instance to get IP address"
  | .fuelOut => some "unreachable: fuel exhausted"

/-- A run of the polling loop together with how many `GetInstanceState`
queries and how many 5-second sleeps it performed. -/
structure PollTrace where
  queries : Nat
  sleeps : Nat
  result : PollResult
  deriving DecidableEq, Repr

/-- The body of `Create`'s `for` loop, with the `retry` counter explicit
and structural fuel to express the recursion.  `responses i` is the result
of the `(i+1)`-st `GetInstanceState` call.  Each iteration: on a query
error return it; on a terminal status fail naming the status; otherwise
scan for the first qualifying address and return it; otherwise sleep,
increment `retry`, and time out once `retry > maxRetries`. -/
def pollAux (responses : Nat → Except String InstanceState) :
    Nat → Nat → PollTrace
  | _, 0 => ⟨0, 0, .fuelOut⟩
  | retry, fuel + 1 =>
    match responses retry with
    | .error e => ⟨1, 0, .queryError e⟩
    | .ok st =>
      if terminalStatusCodes.contains st.statusCode then
        ⟨1, 0, .statusError st.statusCode⟩
      else
        match firstQualifyingAddr st.network with
        | some a => ⟨1, 0, .ipFound a.address⟩
        | none =>
          if retry + 1 > maxRetries then ⟨1, 1, .timeout⟩
          else
            let rest := pollAux responses (retry + 1) fuel
            ⟨rest.queries + 1, rest.sleeps + 1, rest.result⟩

/-- `Create`'s polling loop: `retry` starts at `0`; fuel `maxRetries + 1`
covers every iteration the loop can reach (the timeout guard fires once
`retry + 1 > maxRetries`). -/
def createPoll (responses : Nat → Except String InstanceState) : PollTrace :=
  pollAux responses 0 (maxRetries + 1)

/-- The wire request `api.InstancePut` (the fields `Create` fills in). -/
structure InstancePut where
  profiles : List String
  description : String
  config : ConfigMap
  devices : List (String × ConfigMap)
  deriving DecidableEq, Repr

/-- The wire request `api.InstancesPost` (the fields `Create` fills in). -/
structure InstancesPost where
  name : String
  type : String
  start : Bool
  source : InstanceSource
  put : InstancePut
  deriving DecidableEq, Repr

/-- The external effects `Create` consumes: SSH key generation/read, the
optional cloud-init user-data file read (`none` models a read error, in
which case the file is silently skipped), instance-creation submit and
wait, and the sequence of `GetInstanceState` responses. -/
structure CreateEnv where
  sshKey : Except String String
  userDataContent : Option String
  createSubmit : InstancesPost → Except String Unit
  createWait : Except String Unit
  responses : Nat → Except String InstanceState

/-- The config-map assembly at the top of `Create`: starting from the map
that `config := d.rsrcConfig` aliases, set the cloud-init vendor-data
(with the public key spliced in), then the optional user-data (skipped
silently if the file read failed), then the fixed OVN network-config when
the overlay flag is set. -/
def buildCreateConfig (cloudInitUserData : String) (isOVN : Bool)
    (rsrc : ConfigMap) (pubKey : String)
    (userData : Option String) : ConfigMap :=
  let config := mapSet rsrc "cloud-init.vendor-data"
    (cloudInitVendorData pubKey)
  let config :=
    if cloudInitUserData != "" then
      match userData with
      | some content => mapSet config "cloud-init.user-data" content
      | none => config
    else config
  if isOVN then
    mapSet config "cloud-init.network-config" cloudInitNetworkConfigOVN
  else config

/-- `Driver.Create`, returning the driver's post-state together with the
returned error (`none` on success).  The Go statement
`config := d.rsrcConfig` copies a map *reference*: every write through
`config` mutates the map that `d.rsrcConfig` points to, so the model
re-stores the updated map into `rsrcConfig`.  Indexing a nil map for
assignment, or dereferencing a nil `imgConfig`, would panic in Go; both are
modelled as error outcomes. -/
def Create (senv : ServerEnv) (env : CreateEnv) (d0 : Driver) :
    Driver × Option String :=
  match env.sshKey with
  | .error e => (d0, some e)
  | .ok pubKey =>
    let d1 := { d0 with sshPublicKey := pubKey }
    match getClient senv d1 with
    | .error e => (d1, some e)
    | .ok d2 =>
      match d2.rsrcConfig, d2.imgConfig with
      | none, _ => (d2, some "panic: assignment to entry in nil map")
      | _, none => (d2, some "panic: nil pointer dereference")
      | some rsrc, some src =>
        let config := buildCreateConfig d2.cloudInitUserData d2.isOVN rsrc
          pubKey env.userDataContent
        let d3 := { d2 with rsrcConfig := some config }
        let req : InstancesPost :=
          { name := d3.machineName
            type := "virtual-machine"
            start := true
            source := src
            put :=
              { profiles := [d3.profile]
                description := "Created by Rancher Machine"
                config := config
                devices := [("root", d3.diskConfig.getD []),
                            ("eth0", d3.netConfig.getD [])] } }
        match env.createSubmit req with
        | .error e => (d3, some e)
        | .ok _ =>
          match env.createWait with
          | .error e => (d3, some e)
          | .ok _ =>
            let tr := createPoll env.responses
            match tr.result with
            | .ipFound a => ({ d3 with ipAddress := a }, none)
            | r => (d3, r.errorMessage)

/-- The submit/wait oracles for the state-change and delete operations
issued by `Kill` and `Remove`. -/
structure RemoveEnv where
  killSubmit : Except String Unit
  killWait : Except String Unit
  deleteSubmit : Except String Unit
  deleteWait : Except String Unit

/-- `Driver.Kill`: connect, submit a forced stop, wait. -/
def Kill (senv : ServerEnv) (env : RemoveEnv) (d : Driver) :
    Driver × Option String :=
  match getClient senv d with
  | .error e => (d, some e)
  | .ok d1 =>
    match env.killSubmit with
    | .error e => (d1, some e)
    | .ok _ =>
      match env.killWait with
      | .error e => (d1, some e)
      | .ok _ => (d1, none)

/-- `Driver.Remove`: calls `Kill` with its error discarded, then connects,
submits the delete, and waits on it. -/
def Remove (senv : ServerEnv) (env : RemoveEnv) (d : Driver) :
    Driver × Option String :=
  let d1 := (Kill senv env d).fst
  match getClient senv d1 with
  | .error e => (d1, some e)
  | .ok d2 =>
    match env.deleteSubmit with
    | .error e => (d2, some e)
    | .ok _ =>
      match env.deleteWait with
      | .error e => (d2, some e)
      | .ok _ => (d2, none)

/-- `drivers.DriverOptions`: flag lookup by name. -/
structure DriverOptions where
  stringOpt : String → String
  intOpt : String → Int

/-- `Driver.SetConfigFromFlags`: copies each flag value into its field and
returns nil.  The trailing `d.SetSwarmConfigFromFlags(flags)` is a void
library call on the embedded `BaseDriver` (it only stores swarm settings
outside the fields modelled here) and cannot affect the returned error. -/
def SetConfigFromFlags (flags : DriverOptions) (d : Driver) :
    Driver × Option String :=
  ({ d with
      url := flags.stringOpt "incus-url"
      tlsClientCert := flags.stringOpt "incus-tls-client-cert"
      tlsClientKey := flags.stringOpt "incus-tls-client-key"
      cpu := flags.intOpt "incus-cpu-count"
      memory := flags.intOpt "incus-memory-size"
      diskSize := flags.intOpt "incus-disk-size"
      project := flags.stringOpt "incus-project"
      profile := flags.stringOpt "incus-profile"
      network := flags.stringOpt "incus-network-name"
      storage := flags.stringOpt "incus-storage-name"
      image := flags.stringOpt "incus-image-name"
      sshPort := flags.intOpt "incus-ssh-port"
      sshUser := flags.stringOpt "incus-ssh-user"
      cloudInitUserData := flags.stringOpt "incus-cloudinit-userdata" },
   none)

/-- A polling iteration makes no progress when the query succeeds, the
status is not terminal, and no qualifying (IPv4, non-local) address is
reported: the loop then sleeps and retries. -/
def nonProgress (r : Except String InstanceState) : Bool :=
  match r with
  | .error _ => false
  | .ok st =>
    !(terminalStatusCodes.contains st.statusCode) &&
      (firstQualifyingAddr st.network).isNone

/-- A sample `GetInstanceState` response: running, no addresses yet. -/
def respNoAddr : Except String InstanceState := .ok ⟨.running, []⟩

/-- A sample instance state reporting one global IPv4 address. -/
def stWithAddr : InstanceState :=
  ⟨.running, [⟨[⟨"10.167.24.31", "inet", "global"⟩]⟩]⟩

/-- A sample `GetInstanceState` response carrying `stWithAddr`. -/
def respWithAddr : Except String InstanceState := .ok stWithAddr

/-- A sample `GetInstanceState` response with the terminal status
`Error`. -/
def respTerminal : Except String InstanceState := .ok ⟨.error, []⟩

/-- A response sequence whose first 101 states report no address and whose
102nd reports a qualifying address. -/
def responsesAddrAt101 : Nat → Except String InstanceState :=
  fun i => if i < 101 then respNoAddr else respWithAddr

/-- A sample remote-server catalog: one bridge network `br0`, one OVN
network `ovn0`, one macvlan network `mv0`, a storage pool `local`, a
locally aliased image `local-img` (also published on the remote index) and
a remote-only image `remote-img`. -/
def sampleEnv : ServerEnv where
  connectOk := true
  projectExists := fun _ => true
  profileExists := fun _ => true
  localImageAlias := fun s => s == "local-img"
  remoteConnectOk := true
  remoteImageAlias := fun s => s == "remote-img" || s == "local-img"
  networkLookup := fun s =>
    if s == "br0" then some "bridge"
    else if s == "ovn0" then some "ovn"
    else if s == "mv0" then some "macvlan"
    else none
  storagePoolExists := fun s => s == "local"

/-- A sample driver with a connected client and the given network name. -/
def dNet (name : String) : Driver :=
  { NewDriver "vm0" "/store" with network := name, clientConnected := true }

/-- A sample driver with a connected client and the given image
reference. -/
def dImg (name : String) : Driver :=
  { NewDriver "vm0" "/store" with image := name, clientConnected := true }

/-- A sample driver as it stands after a successful `PreCreateCheck`: all
four descriptors resolved. -/
def resolvedSample : Driver :=
  { NewDriver "vm0" "/store" with
      cpu := 1
      memory := 1024
      diskSize := 10240
      project := "default"
      profile := "default"
      network := "br0"
      storage := "local"
      image := "local-img"
      clientConnected := true
      imgConfig := some ⟨"image", "local-img", "", ""⟩
      netConfig := some [("name", "br0"), ("type", "nic"),
                         ("nictype", "bridged"), ("parent", "br0")]
      diskConfig := some [("type", "disk"), ("path", "/"),
                          ("pool", "local"), ("size", "10240MiB")]
      rsrcConfig := some [("limits.cpu", "1"),
                          ("limits.memory", "1024MiB")] }

/-- A sample `Create` environment: key generation succeeds, no user-data
file, submit and wait succeed, and the very first state query already
reports a qualifying address. -/
def sampleCreateEnv : CreateEnv where
  sshKey := .ok "ssh-ed25519 AAAAC3 sample"
  userDataContent := none
  createSubmit := fun _ => .ok ()
  createWait := .ok ()
  responses := fun _ => respWithAddr

/-- A sample flag set whose string flags are all empty and whose int flags
are all zero. -/
def emptyFlags : DriverOptions where
  stringOpt := fun _ => ""
  intOpt := fun _ => 0

/-! ### Lemmas about the polling loop -/

/-- One-step unfolding of `pollAux` for positive fuel. -/
lemma pollAux_succ (responses : Nat → Except String InstanceState)
    (retry fuel : Nat) :
    pollAux responses retry (fuel + 1) =
      match responses retry with
      | .error e => ⟨1, 0, .queryError e⟩
      | .ok st =>
        if terminalStatusCodes.contains st.statusCode then
          ⟨1, 0, .statusError st.statusCode⟩
        else
          match firstQualifyingAddr st.network with
          | some a => ⟨1, 0, .ipFound a.address⟩
          | none =>
            if retry + 1 > maxRetries then ⟨1, 1, .timeout⟩
            else
              let rest := pollAux responses (retry + 1) fuel
              ⟨rest.queries + 1, rest.sleeps + 1, rest.result⟩ := rfl

lemma pollAux_cont (responses : Nat → Except String InstanceState)
    (retry fuel : Nat) (h : nonProgress (responses retry) = true)
    (hlt : retry < maxRetries) :
    pollAux responses retry (fuel + 1) =
      ⟨(pollAux responses (retry + 1) fuel).queries + 1,
       (pollAux responses (retry + 1) fuel).sleeps + 1,
       (pollAux responses (retry + 1) fuel).result⟩ := by
  unfold nonProgress at h
  rw [pollAux_succ]
  cases hr : responses retry with
  | error e => rw [hr] at h; simp at h
  | ok st =>
    rw [hr] at h
    simp only [Bool.and_eq_true, Bool.not_eq_true'] at h
    obtain ⟨hterm, haddr⟩ := h
    cases ha : firstQualifyingAddr st.network with
    | some a => rw [ha] at haddr; simp at haddr
    | none =>
      have hgt : ¬ (retry + 1 > maxRetries) := by omega
      have hmem : st.statusCode ∉ terminalStatusCodes := by simpa using hterm
      simp [hmem, ha, hgt]

lemma pollAux_timeout_step (responses : Nat → Except String InstanceState)
    (retry fuel : Nat) (h : nonProgress (responses retry) = true)
    (hge : maxRetries ≤ retry) :
    pollAux responses retry (fuel + 1) = ⟨1, 1, .timeout⟩ := by
  unfold nonProgress at h
  rw [pollAux_succ]
  cases hr : responses retry with
  | error e => rw [hr] at h; simp at h
  | ok st =>
    rw [hr] at h
    simp only [Bool.and_eq_true, Bool.not_eq_true'] at h
    obtain ⟨hterm, haddr⟩ := h
    cases ha : firstQualifyingAddr st.network with
    | some a => rw [ha] at haddr; simp at haddr
    | none =>
      have hgt : retry + 1 > maxRetries := by omega
      have hmem : st.statusCode ∉ terminalStatusCodes := by simpa using hterm
      simp [hmem, ha, hgt]

lemma pollAux_success_step (responses : Nat → Except String InstanceState)
    (retry fuel : Nat) (st : InstanceState) (a : Address)
    (hst : responses retry = .ok st)
    (hterm : terminalStatusCodes.contains st.statusCode = false)
    (haddr : firstQualifyingAddr st.network = some a) :
    pollAux responses retry (fuel + 1) = ⟨1, 0, .ipFound a.address⟩ := by
  rw [pollAux_succ, hst]
  have hmem : st.statusCode ∉ terminalStatusCodes := by simpa using hterm
  simp [hmem, haddr]

lemma pollAux_terminal_step (responses : Nat → Except String InstanceState)
    (retry fuel : Nat) (st : InstanceState)
    (hst : responses retry = .ok st)
    (hterm : terminalStatusCodes.contains st.statusCode = true) :
    pollAux responses retry (fuel + 1) = ⟨1, 0, .statusError st.statusCode⟩ := by
  rw [pollAux_succ, hst]
  have hmem : st.statusCode ∈ terminalStatusCodes := by simpa using hterm
  simp [hmem]

/-- Skipping `K` consecutive no-progress iterations adds `K` to the query
and sleep counts and leaves the eventual result unchanged. -/
lemma pollAux_skip (responses : Nat → Except String InstanceState)
    (K : Nat) :
    ∀ retry fuel : Nat,
      (∀ i, i < K → nonProgress (responses (retry + i)) = true) →
      retry + K ≤ maxRetries → K ≤ fuel →
      pollAux responses retry fuel =
        ⟨(pollAux responses (retry + K) (fuel - K)).queries + K,
         (pollAux responses (retry + K) (fuel - K)).sleeps + K,
         (pollAux responses (retry + K) (fuel - K)).result⟩ := by
  induction K with
  | zero => intro retry fuel _ _ _; simp
  | succ K ih =>
    intro retry fuel h hb hf
    obtain ⟨fuel, rfl⟩ : ∃ f, fuel = f + 1 := ⟨fuel - 1, by omega⟩
    have h0 : nonProgress (responses retry) = true := by
      have := h 0 (Nat.succ_pos K); simpa using this
    rw [pollAux_cont responses retry fuel h0 (by omega)]
    have hshift : ∀ i, i < K → nonProgress (responses (retry + 1 + i)) = true := by
      intro i hi
      have := h (i + 1) (by omega)
      have e : retry + (i + 1) = retry + 1 + i := by omega
      rwa [e] at this
    rw [ih (retry + 1) fuel hshift (by omega) (by omega)]
    have e1 : retry + 1 + K = retry + (K + 1) := by omega
    have e2 : fuel - K = fuel + 1 - (K + 1) := by omega
    rw [e1, e2]
    simp only [PollTrace.mk.injEq]
    refine ⟨by omega, by omega, trivial⟩

/-- The loop never performs more queries than it has fuel. -/
lemma pollAux_queries_le (responses : Nat → Except String InstanceState) :
    ∀ fuel retry : Nat, (pollAux responses retry fuel).queries ≤ fuel := by
  intro fuel
  induction fuel with
  | zero => intro retry; simp [pollAux]
  | succ fuel ih =>
    intro retry
    rw [pollAux_succ]
    cases responses retry with
    | error e => simp
    | ok st =>
      by_cases hmem : st.statusCode ∈ terminalStatusCodes
      · simp [hmem]
      · cases ha : firstQualifyingAddr st.network with
        | some a => simp [hmem, ha]
        | none =>
          by_cases hret : retry + 1 > maxRetries
          · simp [hmem, ha, hret]
          · have := ih (retry + 1)
            simp [hmem, ha, hret]
            omega

/-- With the initial fuel `createPoll` supplies, the fuel-exhaustion
artifact is unreachable. -/
lemma createPoll_result_ne_fuelOut
    (responses : Nat → Except String InstanceState) :
    (createPoll responses).result ≠ .fuelOut := by
  have key : ∀ fuel retry, retry ≤ maxRetries → maxRetries + 1 ≤ retry + fuel →
      (pollAux responses retry fuel).result ≠ .fuelOut := by
    intro fuel
    induction fuel with
    | zero => intro retry h1 h2; exfalso; unfold maxRetries at h1 h2; omega
    | succ fuel ih =>
      intro retry h1 _
      rw [pollAux_succ]
      cases responses retry with
      | error e => simp
      | ok st =>
        by_cases hmem : st.statusCode ∈ terminalStatusCodes
        · simp [hmem]
        · cases ha : firstQualifyingAddr st.network with
          | some a => simp [hmem, ha]
          | none =>
            by_cases hret : retry + 1 > maxRetries
            · simp [hmem, ha, hret]
            · have := ih (retry + 1) (by omega) (by omega)
              simp [hmem, ha, hret]
              exact this
  exact key (maxRetries + 1) 0 (by omega) (by omega)

/-- If every queried state up to and including the 101st makes no progress,
the loop runs out of retry budget: 101 queries, 101 sleeps, timeout. -/
lemma createPoll_timeout_of_allNonProgress
    (responses : Nat → Except String InstanceState)
    (h : ∀ i, i ≤ maxRetries → nonProgress (responses i) = true) :
    createPoll responses = ⟨101, 101, .timeout⟩ := by
  unfold createPoll
  have hskip := pollAux_skip responses maxRetries 0 (maxRetries + 1)
    (fun i hi => by simpa using h i (by omega)) (by omega) (by omega)
  have e0 : 0 + maxRetries = maxRetries := by omega
  have e1 : maxRetries + 1 - maxRetries = 0 + 1 := by omega
  rw [e0, e1] at hskip
  rw [hskip, pollAux_timeout_step responses maxRetries 0
    (by simpa using h maxRetries le_rfl) le_rfl]
  simp [maxRetries]

/-- If the first `K` queried states make no progress and the `(K+1)`-st
succeeds with a qualifying address, the loop returns that address after
exactly `K + 1` queries and `K` sleeps. -/
lemma createPoll_success_of_firstQualifying
    (responses : Nat → Except String InstanceState)
    (K : Nat) (st : InstanceState) (a : Address)
    (hK : K ≤ maxRetries)
    (hfail : ∀ i, i < K → nonProgress (responses i) = true)
    (hst : responses K = .ok st)
    (hterm : terminalStatusCodes.contains st.statusCode = false)
    (haddr : firstQualifyingAddr st.network = some a) :
    createPoll responses = ⟨K + 1, K, .ipFound a.address⟩ := by
  unfold createPoll
  have hskip := pollAux_skip responses K 0 (maxRetries + 1)
    (fun i hi => by simpa using hfail i hi) (by omega) (by omega)
  have e0 : 0 + K = K := by omega
  obtain ⟨f, hf⟩ : ∃ f, maxRetries + 1 - K = f + 1 := ⟨maxRetries - K, by omega⟩
  rw [e0, hf] at hskip
  rw [hskip, pollAux_success_step responses K f st a hst hterm haddr]
  simp only [PollTrace.mk.injEq]
  refine ⟨by omega, by omega, trivial⟩

/-- If the first `K` queried states make no progress and the `(K+1)`-st
reports a terminal status, the loop fails on that iteration: `K + 1`
queries, only the `K` earlier sleeps, error naming the status. -/
lemma createPoll_terminal_of_firstTerminal
    (responses : Nat → Except String InstanceState)
    (K : Nat) (st : InstanceState)
    (hK : K ≤ maxRetries)
    (hfail : ∀ i, i < K → nonProgress (responses i) = true)
    (hst : responses K = .ok st)
    (hterm : terminalStatusCodes.contains st.statusCode = true) :
    createPoll responses = ⟨K + 1, K, .statusError st.statusCode⟩ := by
  unfold createPoll
  have hskip := pollAux_skip responses K 0 (maxRetries + 1)
    (fun i hi => by simpa using hfail i hi) (by omega) (by omega)
  have e0 : 0 + K = K := by omega
  obtain ⟨f, hf⟩ : ∃ f, maxRetries + 1 - K = f + 1 := ⟨maxRetries - K, by omega⟩
  rw [e0, hf] at hskip
  rw [hskip, pollAux_terminal_step responses K f st hst hterm]
  simp only [PollTrace.mk.injEq]
  refine ⟨by omega, by omega, trivial⟩

/-! ### Claim C1 -/

/-- Claim C1, corrected: on a run in which no instance-state response contains a
qualifying (IPv4, non-local) address, `Create`'s polling loop performs
exactly 101 state queries (not 100: `retry` is incremented after the query
and the loop exits once `retry > maxRetries`), then fails with the timeout
error; no run ever performs a 102nd query. -/
theorem createPoll_timeout_101_queries
    (responses : Nat → Except String InstanceState)
    (h : ∀ i, i ≤ maxRetries → nonProgress (responses i) = true) :
    createPoll responses = ⟨101, 101, .timeout⟩ ∧
      (createPoll responses).result.errorMessage =
        some "timeout waiting for instance to get IP address" ∧
      ∀ rs, (createPoll rs).queries ≤ 101 := by
  have htr := createPoll_timeout_of_allNonProgress responses h
  refine ⟨htr, by rw [htr]; rfl, ?_⟩
  intro rs
  exact pollAux_queries_le rs (maxRetries + 1) 0

/-- Witness for `createPoll_timeout_101_queries` at the constant
no-address response sequence. -/
theorem createPoll_timeout_101_queries_witness :
    (∀ i, i ≤ maxRetries → nonProgress ((fun _ => respNoAddr) i) = true) ∧
      createPoll (fun _ => respNoAddr) = ⟨101, 101, .timeout⟩ :=
  ⟨by decide, (createPoll_timeout_101_queries (fun _ => respNoAddr)
    (by decide)).1⟩

/-- Counterexample to C1 as stated: with every response address-free, the
loop performs 101 state queries — a 101st query does happen — before the
timeout error. -/
theorem createPoll_queries_exceed_100 :
    (createPoll fun _ => respNoAddr).queries = 101 ∧
      (createPoll fun _ => respNoAddr).result = .timeout := by
  have h := createPoll_timeout_of_allNonProgress (fun _ => respNoAddr)
    (by decide)
  rw [h]
  exact ⟨rfl, rfl⟩

/-! ### Claim C3 -/

/-- Claim C3, corrected: if the first `K` instance-state responses are non-error,
non-terminal and contain no non-local IPv4 address, response `K + 1`
contains one, and `K ≤ 100` (so the retry budget is not yet exhausted),
then the loop performs exactly `K + 1` state queries with exactly `K`
sleeps, records the first address whose family is `inet` and whose scope is
not `local`, and returns success immediately, never revisiting the
address. -/
theorem createPoll_first_address_wins
    (responses : Nat → Except String InstanceState)
    (K : Nat) (st : InstanceState) (a : Address)
    (hK : K ≤ maxRetries)
    (hfail : ∀ i, i < K → nonProgress (responses i) = true)
    (hst : responses K = .ok st)
    (hterm : terminalStatusCodes.contains st.statusCode = false)
    (haddr : firstQualifyingAddr st.network = some a) :
    createPoll responses = ⟨K + 1, K, .ipFound a.address⟩ :=
  createPoll_success_of_firstQualifying responses K st a hK hfail hst hterm
    haddr

/-- Witness for `createPoll_first_address_wins`: two empty responses, then
an address. -/
theorem createPoll_first_address_wins_witness :
    (∀ i, i < 2 →
      nonProgress ((fun i => if i < 2 then respNoAddr else respWithAddr) i)
        = true) ∧
      createPoll (fun i => if i < 2 then respNoAddr else respWithAddr) =
        ⟨3, 2, .ipFound "10.167.24.31"⟩ :=
  ⟨by decide,
    createPoll_first_address_wins
      (fun i => if i < 2 then respNoAddr else respWithAddr) 2 stWithAddr
      ⟨"10.167.24.31", "inet", "global"⟩ (by decide) (by decide) rfl
      (by decide) (by decide)⟩

/-- Counterexample to C3 as stated (its quantification over `K` is
unbounded): with `K = 101` — the first 101 responses address-free and
response 102 carrying a qualifying address — the loop does not perform
`K + 1 = 102` queries and return the address; it times out after 101
queries. -/
theorem createPoll_no_success_at_K_101 :
    ((List.range 101).all fun i => nonProgress (responsesAddrAt101 i)) =
        true ∧
      responsesAddrAt101 101 = .ok stWithAddr ∧
      firstQualifyingAddr stWithAddr.network =
        some ⟨"10.167.24.31", "inet", "global"⟩ ∧
      createPoll responsesAddrAt101 = ⟨101, 101, .timeout⟩ := by
  refine ⟨by decide, rfl, by decide, ?_⟩
  exact createPoll_timeout_of_allNonProgress responsesAddrAt101 (by decide)

/-! ### Claim C4 -/

/-- Claim C4, confirmed: if during polling the `(K+1)`-st queried status is one
of the terminal-error classes (aborting, freezing, frozen, thawed, error,
failure, cancelled) and the earlier iterations made no progress, the loop
fails on that very iteration with an error naming the status: `K + 1`
queries (none after it), `K` sleeps (none on the failing iteration), and
no waiting for the retry budget. -/
theorem createPoll_terminal_fails_immediately
    (responses : Nat → Except String InstanceState)
    (K : Nat) (st : InstanceState)
    (hK : K ≤ maxRetries)
    (hfail : ∀ i, i < K → nonProgress (responses i) = true)
    (hst : responses K = .ok st)
    (hterm : terminalStatusCodes.contains st.statusCode = true) :
    createPoll responses = ⟨K + 1, K, .statusError st.statusCode⟩ ∧
      (PollResult.statusError st.statusCode).errorMessage =
        some ("instance state is " ++ st.statusCode.display) :=
  ⟨createPoll_terminal_of_firstTerminal responses K st hK hfail hst hterm,
    rfl⟩

/-- Witness for `createPoll_terminal_fails_immediately`: one empty
response, then status `Error`. -/
theorem createPoll_terminal_fails_immediately_witness :
    (∀ i, i < 1 →
      nonProgress ((fun i => if i < 1 then respNoAddr else respTerminal) i)
        = true) ∧
      createPoll (fun i => if i < 1 then respNoAddr else respTerminal) =
        ⟨2, 1, .statusError .error⟩ ∧
      (PollResult.statusError StatusCode.error).errorMessage =
        some "instance state is Error" :=
  ⟨by decide,
    (createPoll_terminal_fails_immediately
      (fun i => if i < 1 then respNoAddr else respTerminal) 1 ⟨.error, []⟩
      (by decide) (by decide) rfl (by decide)).1,
    rfl⟩

/-! ### Lemmas about Go-map assignment -/

lemma mapGet_mapSet_self (m : ConfigMap) (k v : String) :
    mapGet (mapSet m k v) k = some v := by
  induction m with
  | nil => simp [mapSet, mapGet]
  | cons kv rest ih =>
    obtain ⟨k0, v0⟩ := kv
    by_cases h : (k0 == k) = true
    · simp [mapSet, mapGet, h]
    · simp only [Bool.not_eq_true] at h
      simp [mapSet, mapGet, h, ih]

lemma mapGet_mapSet_ne (m : ConfigMap) (k k' v : String)
    (h : (k' == k) = false) :
    mapGet (mapSet m k' v) k = mapGet m k := by
  induction m with
  | nil => simp [mapSet, mapGet, h]
  | cons kv rest ih =>
    obtain ⟨k0, v0⟩ := kv
    by_cases h0 : (k0 == k') = true
    · have hk : k0 = k' := by simpa using h0
      subst hk
      simp [mapSet, mapGet, h0, h]
    · simp only [Bool.not_eq_true] at h0
      simp [mapSet, mapGet, h0, ih]

/-- Whatever the optional user-data and the overlay flag, the config map
`Create` assembles binds the vendor-data key to the rendered template. -/
lemma buildCreateConfig_vendorData (cud : String) (ovn : Bool)
    (rsrc : ConfigMap) (pubKey : String) (userData : Option String) :
    mapGet (buildCreateConfig cud ovn rsrc pubKey userData)
      "cloud-init.vendor-data" = some (cloudInitVendorData pubKey) := by
  have hne1 : ∀ m v, mapGet (mapSet m "cloud-init.user-data" v)
      "cloud-init.vendor-data" = mapGet m "cloud-init.vendor-data" :=
    fun m v => mapGet_mapSet_ne m _ _ v (by decide)
  have hne2 : ∀ m v, mapGet (mapSet m "cloud-init.network-config" v)
      "cloud-init.vendor-data" = mapGet m "cloud-init.vendor-data" :=
    fun m v => mapGet_mapSet_ne m _ _ v (by decide)
  unfold buildCreateConfig
  by_cases hud : cud != "" <;>
    by_cases hovn : ovn = true <;>
      cases userData <;>
        simp [hud, hovn, hne1, hne2, mapGet_mapSet_self]

/-! ### Claim C2 -/

/-- Claim C2, corrected: after pre-create resolution, `Create` leaves the
resolved image-source, NIC and disk descriptors untouched, but it does
mutate the resolved resource-limit descriptor: `config := d.rsrcConfig`
aliases the Go map, so the cloud-init entries `Create` writes (vendor-data
always, and possibly user-data / network-config) land in the map held by
`rsrcConfig`. -/
theorem Create_descriptor_mutation
    (senv : ServerEnv) (env : CreateEnv) (d : Driver)
    (pk : String) (m : ConfigMap)
    (hssh : env.sshKey = .ok pk)
    (hc : d.clientConnected = true)
    (hr : d.rsrcConfig = some m)
    (hi : d.imgConfig.isSome = true) :
    (Create senv env d).fst.imgConfig = d.imgConfig ∧
      (Create senv env d).fst.netConfig = d.netConfig ∧
      (Create senv env d).fst.diskConfig = d.diskConfig ∧
      mapGet ((Create senv env d).fst.rsrcConfig.getD [])
          "cloud-init.vendor-data" = some (cloudInitVendorData pk) := by
  obtain ⟨src, hsrc⟩ := Option.isSome_iff_exists.mp hi
  simp only [Create, hssh]
  simp only [getClient, hc, if_true]
  simp only [hr, hsrc]
  have hv := buildCreateConfig_vendorData d.cloudInitUserData d.isOVN m pk
    env.userDataContent
  split <;> (try split) <;> (try split) <;> simp_all

/-- Witness for `Create_descriptor_mutation` at the resolved sample driver
and sample environment. -/
theorem Create_descriptor_mutation_witness :
    (Create sampleEnv sampleCreateEnv resolvedSample).fst.imgConfig =
        resolvedSample.imgConfig ∧
      (Create sampleEnv sampleCreateEnv resolvedSample).fst.netConfig =
        resolvedSample.netConfig ∧
      (Create sampleEnv sampleCreateEnv resolvedSample).fst.diskConfig =
        resolvedSample.diskConfig ∧
      mapGet ((Create sampleEnv sampleCreateEnv
          resolvedSample).fst.rsrcConfig.getD []) "cloud-init.vendor-data" =
        some (cloudInitVendorData "ssh-ed25519 AAAAC3 sample") :=
  Create_descriptor_mutation sampleEnv sampleCreateEnv resolvedSample
    "ssh-ed25519 AAAAC3 sample" [("limits.cpu", "1"),
      ("limits.memory", "1024MiB")] rfl rfl rfl rfl

/-- Counterexample to C2 as stated: on the resolved sample driver,
`Create` completes successfully yet the resource-limit descriptor read
back from the driver differs from the one pre-create resolution stored —
a resolved descriptor was mutated after resolution. -/
theorem Create_rsrcConfig_not_write_once :
    (Create sampleEnv sampleCreateEnv resolvedSample).fst.rsrcConfig ≠
        resolvedSample.rsrcConfig ∧
      (Create sampleEnv sampleCreateEnv resolvedSample).snd = none := by
  decide

/-! ### Claim C5 -/

/-- Claim C5, confirmed: network resolution fails with an unsupported-type error
— and never returns a NIC descriptor — for every network whose type is
outside the supported pair, which the source spells `"bridge"` and `"ovn"`
(the spec's bridge/overlay classes); it likewise fails when the name is
empty or the named network does not exist. -/
theorem getNetwork_unsupported_type_fails
    (env : ServerEnv) (d : Driver) (hc : d.clientConnected = true) :
    (d.network = "" → getNetwork env d = .error "network is required") ∧
      (env.networkLookup d.network = none → d.network ≠ "" →
        getNetwork env d =
          .error ("network " ++ d.network ++ " not found")) ∧
      ∀ ty, env.networkLookup d.network = some ty → d.network ≠ "" →
        ty ≠ "bridge" → ty ≠ "ovn" →
        getNetwork env d =
          .error ("network type " ++ ty ++ " not supported") := by
  refine ⟨fun h => by simp [getNetwork, h], ?_, ?_⟩
  · intro hl h
    simp [getNetwork, getClient, hc, h, hl]
  · intro ty hl h h1 h2
    simp [getNetwork, getClient, hc, h, hl, h1, h2]

/-- Witness for `getNetwork_unsupported_type_fails`: the macvlan-typed
network `mv0` of the sample catalog is rejected. -/
theorem getNetwork_unsupported_type_fails_witness :
    sampleEnv.networkLookup "mv0" = some "macvlan" ∧
      getNetwork sampleEnv (dNet "mv0") =
        .error "network type macvlan not supported" :=
  ⟨rfl,
    (getNetwork_unsupported_type_fails sampleEnv (dNet "mv0") rfl).2.2
      "macvlan" rfl (by decide) (by decide) (by decide)⟩

/-! ### Claim C6 -/

/-- Claim C6, confirmed: network resolution's result is determined by the
network's type: for a bridge-type network named `N` the returned
descriptor's `name` and `parent` entries both equal `N`; for an OVN
(overlay) network the `isOVN` flag becomes true and the descriptor's
interface `name` is the fixed constant `eth0`, whatever the catalog
name. -/
theorem getNetwork_bridge_ovn_shapes
    (env : ServerEnv) (d : Driver) (hc : d.clientConnected = true)
    (hn : d.network ≠ "") :
    (env.networkLookup d.network = some "bridge" →
      getNetwork env d =
        .ok ([("name", d.network), ("type", "nic"), ("nictype", "bridged"),
              ("parent", d.network)], d)) ∧
      (env.networkLookup d.network = some "ovn" →
        getNetwork env d =
          .ok ([("name", "eth0"), ("type", "nic"), ("network", d.network)],
               { d with isOVN := true })) := by
  constructor
  · intro hl
    simp [getNetwork, getClient, hc, hn, hl]
  · intro hl
    simp [getNetwork, getClient, hc, hn, hl]

/-- Witness for `getNetwork_bridge_ovn_shapes` on the sample catalog's
bridge `br0` and OVN network `ovn0`. -/
theorem getNetwork_bridge_ovn_shapes_witness :
    getNetwork sampleEnv (dNet "br0") =
        .ok ([("name", "br0"), ("type", "nic"), ("nictype", "bridged"),
              ("parent", "br0")], dNet "br0") ∧
      getNetwork sampleEnv (dNet "ovn0") =
        .ok ([("name", "eth0"), ("type", "nic"), ("network", "ovn0")],
             { dNet "ovn0" with isOVN := true }) :=
  ⟨(getNetwork_bridge_ovn_shapes sampleEnv (dNet "br0") rfl
      (by decide)).1 rfl,
    (getNetwork_bridge_ovn_shapes sampleEnv (dNet "ovn0") rfl
      (by decide)).2 rfl⟩

/-! ### Claim C7 -/

/-- Claim C7, confirmed: resource-limit resolution is a pure, always-succeeding
function of the CPU count and memory size, returning exactly the two-entry
map of CPU limit (decimal) and memory limit (decimal with `MiB` suffix);
in particular it maps `(4, 2048)` to
`[("limits.cpu", "4"), ("limits.memory", "2048MiB")]`. -/
theorem getResource_pure (d : Driver) :
    getResource d =
      .ok [("limits.cpu", toString d.cpu),
           ("limits.memory", toString d.memory ++ "MiB")] ∧
      getResource { NewDriver "vm0" "/store" with cpu := 4, memory := 2048 }
        = .ok [("limits.cpu", "4"), ("limits.memory", "2048MiB")] :=
  ⟨rfl, rfl⟩

/-! ### Claim C8 -/

/-- Claim C8, confirmed: `Remove` first invokes `Kill` and discards its result
entirely — the outcome of `Remove` is a function of the client connection
and the delete submit/wait oracles alone, never of the kill oracles — and
it propagates exactly the connection error or the first delete-path
error. -/
theorem Remove_ignores_kill_error (senv : ServerEnv) (env : RemoveEnv)
    (d : Driver) :
    (Remove senv env d).snd =
      (match getClient senv d with
       | .error e => some e
       | .ok _ =>
         match env.deleteSubmit with
         | .error e => some e
         | .ok _ =>
           match env.deleteWait with
           | .error e => some e
           | .ok _ => none) := by
  unfold Remove
  cases hg : getClient senv d with
  | error e =>
    have hk : Kill senv env d = (d, some e) := by
      unfold Kill; rw [hg]
    rw [hk]
    simp [hg]
  | ok d1 =>
    have hk : (Kill senv env d).fst = d1 := by
      unfold Kill
      rw [hg]
      cases env.killSubmit with
      | error e => rfl
      | ok u => cases env.killWait <;> rfl
    have hc1 : d1.clientConnected = true := by
      unfold getClient at hg
      by_cases hcc : d.clientConnected
      · simp only [hcc, if_true, Except.ok.injEq] at hg
        rw [← hg]; exact hcc
      · by_cases hco : senv.connectOk
        · by_cases hp : senv.projectExists d.project
          · simp only [hcc, hco, hp, Bool.not_true, Bool.false_eq_true,
              if_false, if_true, Except.ok.injEq] at hg
            rw [← hg]
          · simp [hcc, hco, hp] at hg
        · simp [hcc, hco] at hg
    have hg1 : getClient senv d1 = .ok d1 := by
      unfold getClient; rw [hc1]; rfl
    rw [hk]
    simp only [hg, hg1]
    cases env.deleteSubmit with
    | error e => rfl
    | ok u => cases env.deleteWait <;> rfl

/-! ### Claim C9 -/

/-- Claim C9, confirmed: image resolution fails on an empty reference; otherwise
a hit in the server's local alias catalog yields the local-source
descriptor (empty server/protocol fields) regardless of what the remote
index would say; only on a local miss is the remote index consulted, a hit
there yielding the remote-source descriptor and a miss the image-not-found
error. -/
theorem getImage_local_alias_preferred (env : ServerEnv) (d : Driver)
    (hc : d.clientConnected = true) :
    (d.image = "" → getImage env d = .error "image is required") ∧
      (d.image ≠ "" → env.localImageAlias d.image = true →
        getImage env d =
          .ok { type := "image", aliasName := d.image, server := "",
                protocol := "" }) ∧
      (d.image ≠ "" → env.localImageAlias d.image = false →
        env.remoteConnectOk = true → env.remoteImageAlias d.image = true →
        getImage env d =
          .ok { type := "image", aliasName := d.image,
                server := imageServer, protocol := "simplestreams" }) ∧
      (d.image ≠ "" → env.localImageAlias d.image = false →
        env.remoteConnectOk = true → env.remoteImageAlias d.image = false →
        getImage env d =
          .error ("image " ++ d.image ++ " not found in image server")) := by
  refine ⟨fun h => by simp [getImage, h], ?_, ?_, ?_⟩
  · intro h hl
    simp [getImage, getClient, hc, h, hl]
  · intro h hl hrc hra
    simp [getImage, getClient, hc, h, hl, hrc, hra]
  · intro h hl hrc hra
    simp [getImage, getClient, hc, h, hl, hrc, hra]

/-- Witness for `getImage_local_alias_preferred`: `local-img` matches both
the local catalog and the remote index of the sample environment, and
resolution returns the local-source descriptor. -/
theorem getImage_local_alias_preferred_witness :
    sampleEnv.localImageAlias "local-img" = true ∧
      sampleEnv.remoteImageAlias "local-img" = true ∧
      getImage sampleEnv (dImg "local-img") =
        .ok { type := "image", aliasName := "local-img", server := "",
              protocol := "" } :=
  ⟨rfl, rfl,
    (getImage_local_alias_preferred sampleEnv (dImg "local-img") rfl).2.1
      (by decide) rfl⟩

/-! ### Claim C10 -/

/-- Claim C10, confirmed: `SetConfigFromFlags` returns nil on every input — no
configuration error is detected at configuration time, an empty required
image reference included; that error surfaces only later, when image
resolution runs. -/
theorem SetConfigFromFlags_always_nil (flags : DriverOptions) (d : Driver)
    (senv : ServerEnv) :
    (SetConfigFromFlags flags d).snd = none ∧
      (flags.stringOpt "incus-image-name" = "" →
        getImage senv (SetConfigFromFlags flags d).fst =
          .error "image is required") := by
  refine ⟨rfl, fun h => ?_⟩
  simp [SetConfigFromFlags, getImage, h]

/-- Witness for `SetConfigFromFlags_always_nil` at the all-empty flag
set. -/
theorem SetConfigFromFlags_always_nil_witness :
    (SetConfigFromFlags emptyFlags (NewDriver "vm0" "/store")).snd = none ∧
      getImage sampleEnv
          (SetConfigFromFlags emptyFlags (NewDriver "vm0" "/store")).fst =
        .error "image is required" :=
  ⟨(SetConfigFromFlags_always_nil emptyFlags (NewDriver "vm0" "/store")
      sampleEnv).1,
    (SetConfigFromFlags_always_nil emptyFlags (NewDriver "vm0" "/store")
      sampleEnv).2 rfl⟩

end Incus
